import Mathlib

/-!
# Verification of the ERIS ground station telemetry core

Shallow embedding of the `new_ground_station` Python package:

* `models.py`   — the 29-field telemetry record codec (`TelemetryData.from_csv`);
* `utils.py`    — the wire formatter (`format_for_frontend`);
* `storage.py`  — the session store (`FlightSession`, `StorageManager`);
* `main.py`     — the broadcast hub (`broadcast_message`) and the pipeline
  driver loop (`broadcast_telemetry`).

Python machine-level details are modelled as follows: Python `int` is `Int`
(unbounded), Python `float` on the telemetry value range is `ℚ` (every literal
occurring in the claims is exact), Python strings are Lean `String`s processed
character-by-character, the filesystem is an association list from paths to
file contents, and a Python exception escaping an expression is an
`Except`-style error value.
-/

set_option maxRecDepth 4000

namespace GroundStation

/-! ## Python string primitives

`str.strip` / `str.split(',')` / `int(...)` / `float(...)` as used by
`models.py`.  The numeric parsers cover the decimal grammar actually exercised
by the telemetry wire format (optional sign, digits, optional fraction); every
claim that quantifies over raw lines takes parser success as a hypothesis, so
a conservative grammar is sound here.
-/

/-- The whitespace characters removed by Python `str.strip()`. -/
def isPySpace (c : Char) : Bool :=
  c = ' ' ∨ c = '\t' ∨ c = '\n' ∨ c = '\r' ∨ c = '\x0b' ∨ c = '\x0c'

/-- Python `str.strip()` on a character list. -/
def pyStripChars (cs : List Char) : List Char :=
  ((cs.dropWhile isPySpace).reverse.dropWhile isPySpace).reverse

/-- Decimal digit value. -/
def digitVal (c : Char) : Option Nat :=
  if '0' ≤ c ∧ c ≤ '9' then some (c.toNat - '0'.toNat) else none

/-- Accumulating decimal reader; fails on the first non-digit. -/
def parseNatAux : List Char → Nat → Option Nat
  | [], acc => some acc
  | c :: rest, acc =>
    match digitVal c with
    | some d => parseNatAux rest (acc * 10 + d)
    | none => none

/-- A nonempty all-digit run, as a natural number. -/
def parseNatDigits : List Char → Option Nat
  | [] => none
  | cs => parseNatAux cs 0

/-- Value of a possibly empty digit run (used for the two halves of a float). -/
def natOfDigits (cs : List Char) : Nat :=
  (parseNatAux cs 0).getD 0

/-- Unsigned part of Python `int(...)`. -/
def pyIntUnsigned (cs : List Char) : Option Int :=
  (parseNatDigits cs).map Int.ofNat

/-- Python `int(field)`: optional surrounding whitespace, optional sign,
decimal digits. -/
def pyInt (s : String) : Option Int :=
  match pyStripChars s.toList with
  | '+' :: rest => pyIntUnsigned rest
  | '-' :: rest => (pyIntUnsigned rest).map (fun n => -n)
  | cs => pyIntUnsigned cs

/-- The exact rational value `ip.fp` of a decimal literal with integer part
`ip` and `k`-digit fraction part `fp`.  Written with `mkRat` (rather than the
`@[irreducible]` rational field operations) so that the kernel can evaluate
it on concrete inputs; `decimalVal_eq_div` below relates it to `+` and `/`. -/
def decimalVal (ip fp k : Nat) : ℚ :=
  mkRat (ip * 10 ^ k + fp) (10 ^ k)

/-- Unsigned part of Python `float(...)`: `digits`, `digits.digits`,
`digits.` or `.digits`. -/
def pyFloatUnsigned (cs : List Char) : Option ℚ :=
  let ip := cs.takeWhile (fun c => c ≠ '.')
  let rest := cs.dropWhile (fun c => c ≠ '.')
  match rest with
  | [] => (parseNatDigits ip).map (fun n => (n : ℚ))
  | _ :: fp =>
    if (ip.all (fun c => (digitVal c).isSome) ∧ fp.all (fun c => (digitVal c).isSome))
        ∧ (ip ≠ [] ∨ fp ≠ []) then
      some (decimalVal (natOfDigits ip) (natOfDigits fp) fp.length)
    else
      none

/-- Python `float(field)` on the telemetry grammar. -/
def pyFloat (s : String) : Option ℚ :=
  match pyStripChars s.toList with
  | '+' :: rest => pyFloatUnsigned rest
  | '-' :: rest => (pyFloatUnsigned rest).map (fun q => -q)
  | cs => pyFloatUnsigned cs

/-- `str.split(',')` worker: `acc` holds the current field reversed. -/
def splitCommasAux : List Char → List Char → List String
  | [], acc => [String.mk acc.reverse]
  | c :: rest, acc =>
    if c = ',' then String.mk acc.reverse :: splitCommasAux rest []
    else splitCommasAux rest (c :: acc)

/-- `csv_line.strip().split(',')` from `TelemetryData.from_csv`. -/
def splitFields (line : String) : List String :=
  splitCommasAux (pyStripChars line.toList) []

/-! ## The record codec (`models.py`)

`TelemetryData` mirrors the pydantic model field for field, in declaration
order.  `from_csv` mirrors `TelemetryData.from_csv`: strip, split on `','`,
require exactly 29 fields, coerce every field to its declared type (all 29
argument expressions are evaluated before the model is constructed), then run
the pydantic validation — the `gps_lat`/`gps_lng` range validator and the
`flight_stage` `ge=0, le=6` constraint. -/

/-- The decoded telemetry record: the 29 fields of the pydantic model
`TelemetryData`, in declaration order. -/
structure TelemetryData where
  cur_time : Int
  gps_lat : Int
  gps_lng : Int
  gps_alt : Int
  accel_x : ℚ
  accel_y : ℚ
  accel_z : ℚ
  gyro_x : ℚ
  gyro_y : ℚ
  gyro_z : ℚ
  hg_accel : ℚ
  altitude : ℚ
  velocity : ℚ
  smooth_vel : ℚ
  pressure : ℚ
  temperature : ℚ
  launchsite_msl : ℚ
  airbrake_cont : Bool
  ab_servo_pct : ℚ
  cnrd_servo_pct : ℚ
  drogue_pyro_cont_1 : Bool
  drogue_pyro_cont_2 : Bool
  main_pyro_cont_1 : Bool
  main_pyro_cont_2 : Bool
  flight_index : Int
  ellipse_on : Bool
  cameras_on : Bool
  battery_voltage : ℚ
  flight_stage : Int

/-- Field-wise boolean equality on records (the derived instance is too slow
to elaborate on a 29-field structure, so it is written out). -/
def TelemetryData.beq (a b : TelemetryData) : Bool :=
  a.cur_time == b.cur_time && a.gps_lat == b.gps_lat && a.gps_lng == b.gps_lng &&
  a.gps_alt == b.gps_alt && a.accel_x == b.accel_x && a.accel_y == b.accel_y &&
  a.accel_z == b.accel_z && a.gyro_x == b.gyro_x && a.gyro_y == b.gyro_y &&
  a.gyro_z == b.gyro_z && a.hg_accel == b.hg_accel && a.altitude == b.altitude &&
  a.velocity == b.velocity && a.smooth_vel == b.smooth_vel &&
  a.pressure == b.pressure && a.temperature == b.temperature &&
  a.launchsite_msl == b.launchsite_msl && a.airbrake_cont == b.airbrake_cont &&
  a.ab_servo_pct == b.ab_servo_pct && a.cnrd_servo_pct == b.cnrd_servo_pct &&
  a.drogue_pyro_cont_1 == b.drogue_pyro_cont_1 &&
  a.drogue_pyro_cont_2 == b.drogue_pyro_cont_2 &&
  a.main_pyro_cont_1 == b.main_pyro_cont_1 &&
  a.main_pyro_cont_2 == b.main_pyro_cont_2 &&
  a.flight_index == b.flight_index && a.ellipse_on == b.ellipse_on &&
  a.cameras_on == b.cameras_on && a.battery_voltage == b.battery_voltage &&
  a.flight_stage == b.flight_stage

instance : DecidableEq TelemetryData := fun a b =>
  decidable_of_iff (TelemetryData.beq a b = true) (by
    cases a; cases b
    simp [TelemetryData.beq, Bool.and_eq_true, beq_iff_eq,
      TelemetryData.mk.injEq, and_assoc])

/-- Decode-error taxonomy: wrong field count (`ValueError("Expected 29
fields, got n")`), a failed type coercion at field index `i`
(`ValueError`/`ValidationError` naming the field), or a pydantic range
violation at field index `i` (gps validator or the `flight_stage` bounds). -/
inductive DecodeErr where
  | fieldCount (n : Nat)
  | fieldFormat (idx : Nat)
  | range (idx : Nat)
  deriving DecidableEq

instance {ε α : Type _} [DecidableEq ε] [DecidableEq α] :
    DecidableEq (Except ε α) := fun x y =>
  match x, y with
  | .ok a, .ok b =>
    if h : a = b then isTrue (by rw [h]) else isFalse (fun hc => h (Except.ok.inj hc))
  | .error a, .error b =>
    if h : a = b then isTrue (by rw [h]) else isFalse (fun hc => h (Except.error.inj hc))
  | .ok _, .error _ => isFalse (fun hc => Except.noConfusion hc)
  | .error _, .ok _ => isFalse (fun hc => Except.noConfusion hc)

/-- Whether a decode result failed on a range check. -/
def isRangeError : Except DecodeErr TelemetryData → Bool
  | .error (.range _) => true
  | _ => false

/-- `int(fields[i])`, with a format error naming the field index. -/
def pIntF (f : Nat → String) (i : Nat) : Except DecodeErr Int :=
  match pyInt (f i) with
  | some v => .ok v
  | none => .error (.fieldFormat i)

/-- `float(fields[i])`, with a format error naming the field index. -/
def pFloatF (f : Nat → String) (i : Nat) : Except DecodeErr ℚ :=
  match pyFloat (f i) with
  | some v => .ok v
  | none => .error (.fieldFormat i)

/-- `bool(int(fields[i]))`: any integer literal is accepted; `0` is `False`
and every nonzero integer is `True`. -/
def pBoolF (f : Nat → String) (i : Nat) : Except DecodeErr Bool :=
  match pyInt (f i) with
  | some v => .ok (v != 0)
  | none => .error (.fieldFormat i)

/-- The 29 keyword arguments of the `cls(...)` call in `from_csv`, coerced in
source order; the first failing coercion aborts the call. -/
def parseFieldsTD (f : Nat → String) : Except DecodeErr TelemetryData := do
  let cur_time ← pIntF f 0
  let gps_lat ← pIntF f 1
  let gps_lng ← pIntF f 2
  let gps_alt ← pIntF f 3
  let accel_x ← pFloatF f 4
  let accel_y ← pFloatF f 5
  let accel_z ← pFloatF f 6
  let gyro_x ← pFloatF f 7
  let gyro_y ← pFloatF f 8
  let gyro_z ← pFloatF f 9
  let hg_accel ← pFloatF f 10
  let altitude ← pFloatF f 11
  let velocity ← pFloatF f 12
  let smooth_vel ← pFloatF f 13
  let pressure ← pFloatF f 14
  let temperature ← pFloatF f 15
  let launchsite_msl ← pFloatF f 16
  let airbrake_cont ← pBoolF f 17
  let ab_servo_pct ← pFloatF f 18
  let cnrd_servo_pct ← pFloatF f 19
  let drogue_pyro_cont_1 ← pBoolF f 20
  let drogue_pyro_cont_2 ← pBoolF f 21
  let main_pyro_cont_1 ← pBoolF f 22
  let main_pyro_cont_2 ← pBoolF f 23
  let flight_index ← pIntF f 24
  let ellipse_on ← pBoolF f 25
  let cameras_on ← pBoolF f 26
  let battery_voltage ← pFloatF f 27
  let flight_stage ← pIntF f 28
  return { cur_time, gps_lat, gps_lng, gps_alt, accel_x, accel_y, accel_z,
           gyro_x, gyro_y, gyro_z, hg_accel, altitude, velocity, smooth_vel,
           pressure, temperature, launchsite_msl, airbrake_cont, ab_servo_pct,
           cnrd_servo_pct, drogue_pyro_cont_1, drogue_pyro_cont_2,
           main_pyro_cont_1, main_pyro_cont_2, flight_index, ellipse_on,
           cameras_on, battery_voltage, flight_stage }

/-- The pydantic validation pass over the constructed model: the
`validate_gps_coords` field validator on `gps_lat` (field 1) and `gps_lng`
(field 2) — `abs(v) > 1800000000` is rejected — and the `flight_stage`
constraint `ge=0, le=6` (field 28).  A record passing all checks is returned
unchanged. -/
def validateTD (t : TelemetryData) : Except DecodeErr TelemetryData :=
  if 1800000000 < t.gps_lat.natAbs then .error (.range 1)
  else if 1800000000 < t.gps_lng.natAbs then .error (.range 2)
  else if t.flight_stage < 0 ∨ 6 < t.flight_stage then .error (.range 28)
  else .ok t

/-- `TelemetryData.from_csv`: strip and split the line, require exactly 29
fields, coerce every field, then validate.  A pure function: it returns
either a fully constructed, validated record or an error — never a partially
populated record. -/
def TelemetryData.from_csv (csv_line : String) : Except DecodeErr TelemetryData :=
  let fields := splitFields csv_line
  if fields.length = 29 then
    match parseFieldsTD (fun i => fields.getD i "") with
    | .ok t => validateTD t
    | .error e => .error e
  else
    .error (.fieldCount fields.length)

/-- `get_gps_lat_degrees`: `gps_lat / 10_000_000.0`, exactly. -/
def TelemetryData.get_gps_lat_degrees (t : TelemetryData) : ℚ :=
  mkRat t.gps_lat 10000000

/-- `get_gps_lng_degrees`: `gps_lng / 10_000_000.0`, exactly. -/
def TelemetryData.get_gps_lng_degrees (t : TelemetryData) : ℚ :=
  mkRat t.gps_lng 10000000

/-- `get_gps_alt_meters`: `gps_alt / 1000.0`, exactly. -/
def TelemetryData.get_gps_alt_meters (t : TelemetryData) : ℚ :=
  mkRat t.gps_alt 1000

/-! ## The wire formatter (`utils.py`)

`format_for_frontend` as it is written in `utils.py`: it takes exactly one
parameter, `telemetry`, and computes `time = telemetry.cur_time / 1000.0`
with no takeoff-offset anywhere in its body or signature.  `main.py` (line
165) and `storage.py` (line 71) nevertheless call it with a second
`takeoff_offset` argument; CPython rejects such a call with `TypeError`
before the body runs, which `call_format_for_frontend` models. -/

/-- One frontend point `{time, source, value}`. -/
structure WirePoint where
  time : ℚ
  source : String
  value : ℚ
  deriving DecidableEq

/-- Python `int(bool)`: `True ↦ 1`, `False ↦ 0`, as a wire value. -/
def boolVal (b : Bool) : ℚ :=
  if b then 1 else 0

/-- `utils.format_for_frontend(telemetry)`: the fixed batch of 24 channel
points, in source order, all carrying `time = cur_time / 1000.0` (exact
rational division, written `mkRat`). -/
def format_for_frontend (telemetry : TelemetryData) : List WirePoint :=
  let time : ℚ := mkRat telemetry.cur_time 1000
  [ { time, source := "altitude", value := telemetry.altitude },
    { time, source := "velocity", value := telemetry.velocity },
    { time, source := "smooth_vel", value := telemetry.smooth_vel },
    { time, source := "battery_voltage", value := telemetry.battery_voltage },
    { time, source := "accelx", value := telemetry.accel_x },
    { time, source := "accely", value := telemetry.accel_y },
    { time, source := "accelz", value := telemetry.accel_z },
    { time, source := "gyrox", value := telemetry.gyro_x },
    { time, source := "gyroy", value := telemetry.gyro_y },
    { time, source := "gyroz", value := telemetry.gyro_z },
    { time, source := "hg_accel", value := telemetry.hg_accel },
    { time, source := "temp", value := telemetry.temperature },
    { time, source := "pressure", value := telemetry.pressure },
    { time, source := "lat", value := telemetry.get_gps_lat_degrees },
    { time, source := "long", value := telemetry.get_gps_lng_degrees },
    { time, source := "gps_alt", value := telemetry.get_gps_alt_meters },
    { time, source := "stage", value := (telemetry.flight_stage : ℚ) },
    { time, source := "ab_servo", value := telemetry.ab_servo_pct },
    { time, source := "cnrd_servo", value := telemetry.cnrd_servo_pct },
    { time, source := "drogue_cont_1", value := boolVal telemetry.drogue_pyro_cont_1 },
    { time, source := "drogue_cont_2", value := boolVal telemetry.drogue_pyro_cont_2 },
    { time, source := "main_cont_1", value := boolVal telemetry.main_pyro_cont_1 },
    { time, source := "main_cont_2", value := boolVal telemetry.main_pyro_cont_2 },
    { time, source := "airbrake_cont", value := boolVal telemetry.airbrake_cont } ]

/-- A Python exception escaping an expression of the core. -/
inductive PyError where
  | typeError (msg : String)
  deriving DecidableEq

set_option linter.unusedVariables false in
/-- The two-argument call `format_for_frontend(telemetry, takeoff_offset)`
as performed by `main.broadcast_telemetry` and
`storage.FlightSession.get_all_data`: `utils.format_for_frontend` declares a
single positional parameter, so CPython raises `TypeError` at the call site,
whatever the offset is — the formatter body (and hence any offset
subtraction) is never reached. -/
def call_format_for_frontend (telemetry : TelemetryData) (takeoff_offset : Option ℚ) :
    Except PyError (List WirePoint) :=
  .error (.typeError "format_for_frontend() takes 1 positional argument but 2 were given")

/-! ## The session store (`storage.py`)

The filesystem is an association list from paths to file contents.  A log
file's content is the sequence of its data rows; each row is the wall-clock
ISO timestamp written by `_append_csv_row` paired with the record (the
constant header row written by `_write_csv_header` is common to every log
file and carries no information, so content identity is row identity).
Wall-clock reads (`datetime.now()`, `_generate_timestamp()`) are passed in
explicitly as strings. -/

/-- Content of one durable log file: the rows appended after the header. -/
abbrev FileContent := List (String × TelemetryData)

/-- The filesystem: an association list from paths to contents. -/
abbrev Fs := List (String × FileContent)

/-- Content at a path, if a file exists there. -/
def fsLookup : Fs → String → Option FileContent
  | [], _ => none
  | e :: rest, p => if e.1 = p then some e.2 else fsLookup rest p

/-- Remove the file at `p`. -/
def fsRemove : Fs → String → Fs
  | [], _ => []
  | e :: rest, p => if e.1 = p then fsRemove rest p else e :: fsRemove rest p

/-- Create or overwrite the file at `p` with content `c`. -/
def fsSet (fs : Fs) (p : String) (c : FileContent) : Fs :=
  (p, c) :: fsRemove fs p

/-- `shutil.move(src, dst)`: the content leaves `src` and appears, unchanged,
at `dst`.  (No-op if `src` does not exist; the store only moves files it has
itself created.) -/
def fsMove (fs : Fs) (src dst : String) : Fs :=
  match fsLookup fs src with
  | some c => fsSet (fsRemove fs src) dst c
  | none => fs

/-- `shutil.copy(src, dst)`: the content is duplicated at `dst` and stays at
`src`. -/
def fsCopy (fs : Fs) (src dst : String) : Fs :=
  match fsLookup fs src with
  | some c => fsSet fs dst c
  | none => fs

/-- `FlightSession`: the in-memory buffer of the single active session.  The
durable side (its `current.csv`) lives in the `Fs`. -/
structure FlightSession where
  telemetry_buffer : List TelemetryData
  deriving DecidableEq

/-- `StorageManager`: directories, takeoff clock state, and the current
session.  `takeoff_offset_time` and `last_telemetry_time` are producer-clock
seconds (`cur_time / 1000.0`, exact); `takeoff_wall_time` is a wall-clock
ISO string. -/
structure StorageManager where
  log_dir : String
  backups_dir : String
  takeoff_offset_time : Option ℚ
  takeoff_wall_time : Option String
  last_telemetry_time : Option ℚ
  current_session : FlightSession
  deriving DecidableEq

/-- The well-known live-log path of the store: `log_dir / "current.csv"`. -/
def StorageManager.currentPath (m : StorageManager) : String :=
  m.log_dir ++ "/current.csv"

/-- `StorageManager.add_telemetry` (together with
`FlightSession.add_telemetry`): record the producer time, append the record
to the in-memory buffer, and synchronously append one row to the durable
log.  `wall` is the `datetime.now().isoformat()` written into the row. -/
def StorageManager.add_telemetry (m : StorageManager) (fs : Fs)
    (telemetry : TelemetryData) (wall : String) : StorageManager × Fs :=
  let m' := { m with
    last_telemetry_time := some (mkRat telemetry.cur_time 1000),
    current_session :=
      { telemetry_buffer := m.current_session.telemetry_buffer ++ [telemetry] } }
  let fs' := fsSet fs m.currentPath
    ((fsLookup fs m.currentPath).getD [] ++ [(wall, telemetry)])
  (m', fs')

/-- Result of a control operation, as the dict returned to the caller. -/
inductive OpResult where
  | error (message : String)
  | clearSuccess (backup_filename : String) (takeoff_offset : ℚ) (takeoff_time : String)
  | saveSuccess (filename : String) (saved_at : String)
  deriving DecidableEq

/-- `StorageManager.clear_data` ("clear and mark takeoff").  `ts` is the
generation timestamp produced by `_generate_timestamp()` and `wall` the
`datetime.now()` wall-clock instant of the call.  With no record ever
appended it fails and changes nothing; otherwise it closes the live log,
moves it to `backups/pre_flight_<ts>.csv`, records the takeoff offset and
wall time, and opens a brand-new empty session at a fresh `current.csv`. -/
def StorageManager.clear_data (m : StorageManager) (fs : Fs) (ts wall : String) :
    StorageManager × Fs × OpResult :=
  match m.last_telemetry_time with
  | none => (m, fs, .error "No telemetry received yet")
  | some last =>
    let backup_path := m.backups_dir ++ "/pre_flight_" ++ ts ++ ".csv"
    let fs1 := fsMove fs m.currentPath backup_path
    let fs2 := fsSet fs1 m.currentPath []
    ({ m with
        takeoff_offset_time := some last,
        takeoff_wall_time := some wall,
        current_session := { telemetry_buffer := [] } },
     fs2,
     .clearSuccess ("pre_flight_" ++ ts ++ ".csv") last wall)

/-- `StorageManager.save_flight`: flush and copy the live log to
`backups/flight_<ts>.csv` and to `<log_dir>/flight_<ts>.csv`; the live
session continues unchanged. -/
def StorageManager.save_flight (m : StorageManager) (fs : Fs) (ts wall : String) :
    StorageManager × Fs × OpResult :=
  let backup_path := m.backups_dir ++ "/flight_" ++ ts ++ ".csv"
  let archive_path := m.log_dir ++ "/flight_" ++ ts ++ ".csv"
  let fs1 := fsCopy fs m.currentPath backup_path
  let fs2 := fsCopy fs1 m.currentPath archive_path
  (m, fs2, .saveSuccess ("flight_" ++ ts ++ ".csv") wall)

/-- `StorageManager.save_and_clear`: flush and close the live log, copy it to
`backups/flight_<ts>.csv`, move it to `<log_dir>/flight_<ts>.csv`, reset the
takeoff offset and wall time to unset, and open a brand-new empty session at
a fresh `current.csv`. -/
def StorageManager.save_and_clear (m : StorageManager) (fs : Fs) (ts wall : String) :
    StorageManager × Fs × OpResult :=
  let backup_path := m.backups_dir ++ "/flight_" ++ ts ++ ".csv"
  let archive_path := m.log_dir ++ "/flight_" ++ ts ++ ".csv"
  let fs1 := fsCopy fs m.currentPath backup_path
  let fs2 := fsMove fs1 m.currentPath archive_path
  let fs3 := fsSet fs2 m.currentPath []
  ({ m with
      takeoff_offset_time := none,
      takeoff_wall_time := none,
      current_session := { telemetry_buffer := [] } },
   fs3,
   .saveSuccess ("flight_" ++ ts ++ ".csv") wall)

/-- The loop body of `FlightSession.get_all_data`: extend the result with
`format_for_frontend(telem, takeoff_offset)` for each buffered record —
i.e. with the two-argument call that raises `TypeError`. -/
def getAllDataAux (takeoff_offset : Option ℚ) :
    List TelemetryData → List WirePoint → Except PyError (List WirePoint)
  | [], acc => .ok acc
  | t :: rest, acc =>
    match call_format_for_frontend t takeoff_offset with
    | .ok pts => getAllDataAux takeoff_offset rest (acc ++ pts)
    | .error e => .error e

/-- `StorageManager.get_current_data`: every buffered record of the current
session run through the formatter with the current takeoff offset — the
catch-up path served to newly connected clients. -/
def StorageManager.get_current_data (m : StorageManager) :
    Except PyError (List WirePoint) :=
  getAllDataAux m.takeoff_offset_time m.current_session.telemetry_buffer []

/-! ## The broadcast hub (`main.py`, `broadcast_message`)

Subscribers are identified by handles (naturals); the live set
`connected_clients` is a duplicate-free list.  Whether delivery to a handle
succeeds during one `publish` call is an oracle `ok : Nat → Bool` (a send
either returns or raises; the hub only observes which). -/

/-- The hub state: the `connected_clients` set. -/
structure Hub where
  connected_clients : List Nat
  deriving DecidableEq

/-- `broadcast_message`: early-return on an empty set; otherwise attempt
delivery to every member, collecting the failures in `disconnected`, and only
after the full pass remove the failed members (`difference_update`).  Returns
the new hub state and the list of handles to which delivery was attempted. -/
def broadcast_message (ok : Nat → Bool) (hub : Hub) : Hub × List Nat :=
  if hub.connected_clients.isEmpty then
    (hub, [])
  else
    let attempts := hub.connected_clients
    let disconnected := hub.connected_clients.filter (fun c => !(ok c))
    if disconnected.isEmpty then
      (hub, attempts)
    else
      ({ connected_clients :=
          hub.connected_clients.filter (fun c => !(disconnected.contains c)) },
       attempts)

/-- A sequence of `publish` calls, each with its own delivery oracle;
returns the final hub and the per-call attempt lists. -/
def runPublishes (hub : Hub) : List (Nat → Bool) → Hub × List (List Nat)
  | [] => (hub, [])
  | ok :: rest =>
    let r1 := broadcast_message ok hub
    let r2 := runPublishes r1.1 rest
    (r2.1, r1.2 :: r2.2)

/-! ## The pipeline driver (`main.py`, `broadcast_telemetry`)

One loop iteration: dequeue a raw line, decode it — the inner
`try/except` logs a decode failure and continues — then persist via the
session store and call `format_for_frontend(telemetry, takeoff_offset)`; any
exception from that part of the body is caught by the outer `except` of the
`while True` loop, which logs it and continues.  State mutations made before
an exception (the storage append) persist, so the body error carries the
state at raise time. -/

/-- How one driver iteration ended; every constructor returns the loop to its
waiting state. -/
inductive StepOutcome where
  | processed
  | discarded (e : DecodeErr)
  | errorLogged (e : PyError)
  deriving DecidableEq

/-- The state the driver threads: the session store, the filesystem, and the
batches actually handed to the hub for fan-out. -/
structure GroundState where
  storage : StorageManager
  fs : Fs
  outbox : List (List WirePoint)
  deriving DecidableEq

/-- The body of one `broadcast_telemetry` iteration, between the outer
`try` and `except`: decode (inner `try/except` — a decode failure is logged
and the line discarded), persist, format, broadcast. -/
def broadcast_telemetry_body (st : GroundState) (line wall : String) :
    Except (PyError × GroundState) (GroundState × StepOutcome) :=
  match TelemetryData.from_csv line with
  | .error e => .ok (st, .discarded e)
  | .ok t =>
    let r := st.storage.add_telemetry st.fs t wall
    let st1 := { st with storage := r.1, fs := r.2 }
    match call_format_for_frontend t r.1.takeoff_offset_time with
    | .error e => .error (e, st1)
    | .ok pts => .ok ({ st1 with outbox := st1.outbox ++ [pts] }, .processed)

/-- One full driver iteration: the outer `except Exception` turns any body
error into a logged outcome and the loop continues from the resulting
state. -/
def broadcast_telemetry_step (st : GroundState) (line wall : String) :
    GroundState × StepOutcome :=
  match broadcast_telemetry_body st line wall with
  | .ok r => r
  | .error er => (er.2, .errorLogged er.1)

/-- The driver loop over a queue of `(line, wall-clock)` pairs: it consumes
every queued line in order, one iteration each, and never exits early. -/
def run_broadcast_telemetry (st : GroundState) :
    List (String × String) → GroundState × List StepOutcome
  | [] => (st, [])
  | (line, wall) :: rest =>
    let r1 := broadcast_telemetry_step st line wall
    let r2 := run_broadcast_telemetry r1.1 rest
    (r2.1, r1.2 :: r2.2)

/-! ## Concrete example inputs

The 29-field example line of the specification's end-to-end property, and
the record it decodes to.  The rational field values are written with
`decimalVal` (see `decimalVal_eq_div`): `decimalVal 152 3 1 = 152.3`. -/

/-- The specification's example telemetry line (`cur_time = 12000` ms). -/
def exampleLine : String :=
  "12000,401234567,-1051234567,1523000,15.2,0.3,-0.1,0.05,-0.02,0.1,98.1,152.3,25.4,24.8,1013.25,22.5,300.0,1,45.5,12.3,1,1,0,0,1,1,0,12.6,2"

/-- The record decoded from `exampleLine`. -/
def exampleRecord : TelemetryData :=
  { cur_time := 12000, gps_lat := 401234567, gps_lng := -1051234567,
    gps_alt := 1523000, accel_x := decimalVal 15 2 1, accel_y := decimalVal 0 3 1,
    accel_z := -(decimalVal 0 1 1), gyro_x := decimalVal 0 5 2,
    gyro_y := -(decimalVal 0 2 2), gyro_z := decimalVal 0 1 1,
    hg_accel := decimalVal 98 1 1, altitude := decimalVal 152 3 1,
    velocity := decimalVal 25 4 1, smooth_vel := decimalVal 24 8 1,
    pressure := decimalVal 1013 25 2, temperature := decimalVal 22 5 1,
    launchsite_msl := decimalVal 300 0 1, airbrake_cont := true,
    ab_servo_pct := decimalVal 45 5 1, cnrd_servo_pct := decimalVal 12 3 1,
    drogue_pyro_cont_1 := true, drogue_pyro_cont_2 := true,
    main_pyro_cont_1 := false, main_pyro_cont_2 := false, flight_index := 1,
    ellipse_on := true, cameras_on := false, battery_voltage := decimalVal 12 6 1,
    flight_stage := 2 }

/-- `exampleLine` with non-`{0,1}` integers in three boolean positions:
field 17 (`airbrake_cont`) is `"2"`, field 20 (`drogue_pyro_cont_1`) is
`"-1"` and field 25 (`ellipse_on`) is `"5"`. -/
def boolishLine : String :=
  "12000,401234567,-1051234567,1523000,15.2,0.3,-0.1,0.05,-0.02,0.1,98.1,152.3,25.4,24.8,1013.25,22.5,300.0,2,45.5,12.3,-1,1,0,0,1,5,0,12.6,2"

/-- `exampleLine` with the `gps_lat` field (field 1) replaced by
`"1800000001"`, one beyond the accepted scaled-coordinate range. -/
def badLatLine : String :=
  "12000,1800000001,-1051234567,1523000,15.2,0.3,-0.1,0.05,-0.02,0.1,98.1,152.3,25.4,24.8,1013.25,22.5,300.0,1,45.5,12.3,1,1,0,0,1,1,0,12.6,2"

/-- The 29 fields of `exampleLine`, as split by `splitFields`. -/
def exampleFields : List String :=
  ["12000", "401234567", "-1051234567", "1523000", "15.2", "0.3", "-0.1",
   "0.05", "-0.02", "0.1", "98.1", "152.3", "25.4", "24.8", "1013.25",
   "22.5", "300.0", "1", "45.5", "12.3", "1", "1", "0", "0", "1", "1", "0",
   "12.6", "2"]

/-- The 29 fields of `badLatLine`. -/
def badLatFields : List String :=
  ["12000", "1800000001", "-1051234567", "1523000", "15.2", "0.3", "-0.1",
   "0.05", "-0.02", "0.1", "98.1", "152.3", "25.4", "24.8", "1013.25",
   "22.5", "300.0", "1", "45.5", "12.3", "1", "1", "0", "0", "1", "1", "0",
   "12.6", "2"]

/-- The 29 fields of `boolishLine`. -/
def boolishFields : List String :=
  ["12000", "401234567", "-1051234567", "1523000", "15.2", "0.3", "-0.1",
   "0.05", "-0.02", "0.1", "98.1", "152.3", "25.4", "24.8", "1013.25",
   "22.5", "300.0", "2", "45.5", "12.3", "-1", "1", "0", "0", "1", "5", "0",
   "12.6", "2"]

/-- A ready-made storage state for concrete instantiations: one record
appended, directories as in `main.py` (`flight_logs` / `backups`). -/
def exampleManager : StorageManager :=
  { log_dir := "flight_logs", backups_dir := "backups",
    takeoff_offset_time := none, takeoff_wall_time := none,
    last_telemetry_time := some (mkRat 12000 1000),
    current_session := { telemetry_buffer := [exampleRecord] } }

/-- The filesystem matching `exampleManager`: the live log holds one row. -/
def exampleFs : Fs :=
  [("flight_logs/current.csv", [("2026-01-01T00:00:00", exampleRecord)])]

/-! # Theorems -/

/-! ## Arithmetic bridge -/

theorem decimalVal_eq_div (ip fp k : Nat) :
    decimalVal ip fp k = (ip : ℚ) + (fp : ℚ) / (10 : ℚ) ^ k := by
  have h10 : ((10 : ℚ) ^ k) ≠ 0 := pow_ne_zero _ (by norm_num)
  rw [decimalVal, Rat.mkRat_eq_div]
  push_cast
  field_simp

/-! ## Filesystem lemmas -/

theorem fsLookup_fsSet_self (fs : Fs) (p : String) (c : FileContent) :
    fsLookup (fsSet fs p c) p = some c := by
  simp [fsLookup, fsSet]

theorem fsLookup_fsRemove_ne (fs : Fs) (p q : String) (hqp : q ≠ p) :
    fsLookup (fsRemove fs p) q = fsLookup fs q := by
  induction fs with
  | nil => rfl
  | cons e rest ih =>
    by_cases hep : e.1 = p
    · have heq : e.1 ≠ q := fun h => hqp (h ▸ hep.symm ▸ rfl)
      simp [fsLookup, fsRemove, hep, heq, ih, Ne.symm hqp]
    · by_cases heq : e.1 = q
      · simp [fsLookup, fsRemove, hep, heq, hqp]
      · simp [fsLookup, fsRemove, hep, heq, ih]

theorem fsLookup_fsSet_ne (fs : Fs) (p q : String) (c : FileContent) (hqp : q ≠ p) :
    fsLookup (fsSet fs p c) q = fsLookup fs q := by
  have hpq : p ≠ q := fun h => hqp h.symm
  simp [fsLookup, fsSet, hpq, fsLookup_fsRemove_ne fs p q hqp]

/-! ## Codec characterization

Shared by the range-check, round-trip and boolean-coercion claims: when a
29-field line coerces cleanly, `from_csv` is the pydantic validation applied
to the record assembled from the parsed values in source order.  The split
field list is exposed as a hypothesis so that concrete instantiations
evaluate the split once. -/

theorem from_csv_eq_validate (line : String) (flds : List String)
    (v0 v1 v2 v3 : Int)
    (q4 q5 q6 q7 q8 q9 q10 q11 q12 q13 q14 q15 q16 : ℚ)
    (k17 : Int) (q18 q19 : ℚ) (k20 k21 k22 k23 : Int)
    (v24 k25 k26 : Int) (q27 : ℚ) (v28 : Int)
    (hsplit : splitFields line = flds)
    (hlen : flds.length = 29)
    (h0 : pyInt (flds.getD 0 "") = some v0)
    (h1 : pyInt (flds.getD 1 "") = some v1)
    (h2 : pyInt (flds.getD 2 "") = some v2)
    (h3 : pyInt (flds.getD 3 "") = some v3)
    (h4 : pyFloat (flds.getD 4 "") = some q4)
    (h5 : pyFloat (flds.getD 5 "") = some q5)
    (h6 : pyFloat (flds.getD 6 "") = some q6)
    (h7 : pyFloat (flds.getD 7 "") = some q7)
    (h8 : pyFloat (flds.getD 8 "") = some q8)
    (h9 : pyFloat (flds.getD 9 "") = some q9)
    (h10 : pyFloat (flds.getD 10 "") = some q10)
    (h11 : pyFloat (flds.getD 11 "") = some q11)
    (h12 : pyFloat (flds.getD 12 "") = some q12)
    (h13 : pyFloat (flds.getD 13 "") = some q13)
    (h14 : pyFloat (flds.getD 14 "") = some q14)
    (h15 : pyFloat (flds.getD 15 "") = some q15)
    (h16 : pyFloat (flds.getD 16 "") = some q16)
    (h17 : pyInt (flds.getD 17 "") = some k17)
    (h18 : pyFloat (flds.getD 18 "") = some q18)
    (h19 : pyFloat (flds.getD 19 "") = some q19)
    (h20 : pyInt (flds.getD 20 "") = some k20)
    (h21 : pyInt (flds.getD 21 "") = some k21)
    (h22 : pyInt (flds.getD 22 "") = some k22)
    (h23 : pyInt (flds.getD 23 "") = some k23)
    (h24 : pyInt (flds.getD 24 "") = some v24)
    (h25 : pyInt (flds.getD 25 "") = some k25)
    (h26 : pyInt (flds.getD 26 "") = some k26)
    (h27 : pyFloat (flds.getD 27 "") = some q27)
    (h28 : pyInt (flds.getD 28 "") = some v28) :
    TelemetryData.from_csv line = validateTD
      { cur_time := v0, gps_lat := v1, gps_lng := v2, gps_alt := v3,
        accel_x := q4, accel_y := q5, accel_z := q6, gyro_x := q7,
        gyro_y := q8, gyro_z := q9, hg_accel := q10, altitude := q11,
        velocity := q12, smooth_vel := q13, pressure := q14,
        temperature := q15, launchsite_msl := q16,
        airbrake_cont := k17 != 0, ab_servo_pct := q18,
        cnrd_servo_pct := q19, drogue_pyro_cont_1 := k20 != 0,
        drogue_pyro_cont_2 := k21 != 0, main_pyro_cont_1 := k22 != 0,
        main_pyro_cont_2 := k23 != 0, flight_index := v24,
        ellipse_on := k25 != 0, cameras_on := k26 != 0,
        battery_voltage := q27, flight_stage := v28 } := by
  subst hsplit
  simp only [TelemetryData.from_csv, parseFieldsTD, pIntF, pFloatF, pBoolF,
    hlen, if_true, bind, Except.bind, pure, Except.pure,
    h0, h1, h2, h3, h4, h5, h6, h7, h8, h9, h10, h11, h12, h13, h14, h15,
    h16, h17, h18, h19, h20, h21, h22, h23, h24, h25, h26, h27, h28]

/-! ## C5 — field-count check -/

/-- Claim C5. For every raw input line, `decode` splits the line on the field
delimiter and fails with `FieldCountError` whenever the resulting field
count is not exactly 29; and decoding is atomic — it returns either a fully
valid record or an error, never a partially populated record (`from_csv` is
a pure function into `Except`). -/
theorem from_csv_wrong_field_count (line : String)
    (hn : (splitFields line).length ≠ 29) :
    TelemetryData.from_csv line
      = .error (.fieldCount (splitFields line).length)
    ∧ ((∃ t, TelemetryData.from_csv line = .ok t)
        ∨ (∃ e, TelemetryData.from_csv line = .error e)) := by
  refine ⟨?_, ?_⟩
  · simp only [TelemetryData.from_csv, if_neg hn]
  · cases h : TelemetryData.from_csv line with
    | ok t => exact .inl ⟨t, rfl⟩
    | error e => exact .inr ⟨e, rfl⟩

/-- Witness for C5: the 3-field line `"1,2,3"` is rejected with a
field-count error naming 3. -/
theorem from_csv_wrong_field_count_witness :
    TelemetryData.from_csv "1,2,3" = .error (.fieldCount 3)
    ∧ ((∃ t, TelemetryData.from_csv "1,2,3" = .ok t)
        ∨ (∃ e, TelemetryData.from_csv "1,2,3" = .error e)) := by
  have h := from_csv_wrong_field_count "1,2,3" (by decide)
  have hl : (splitFields "1,2,3").length = 3 := by decide
  rw [hl] at h
  exact h

/-! ## C7 — range checks -/

/-- The validation pass fails on a range check exactly for an out-of-range
scaled geocoordinate or an out-of-domain flight stage. -/
theorem isRangeError_validateTD (t : TelemetryData) :
    isRangeError (validateTD t) = true ↔
      (1800000000 < t.gps_lat.natAbs ∨ 1800000000 < t.gps_lng.natAbs
        ∨ t.flight_stage < 0 ∨ 6 < t.flight_stage) := by
  unfold validateTD isRangeError
  split_ifs with h1 h2 h3 <;> simp_all

/-- Claim C7. For every raw line with exactly 29 correctly-typed fields,
`decode` fails with `RangeError` if the absolute value of either scaled
geocoordinate (`gps_lat` or `gps_lng`) exceeds `1.8×10^9`, fails with
`RangeError` if the flight-stage field lies outside the closed integer range
`[0, 6]`, and a line passing both checks is not rejected on range
grounds. -/
theorem from_csv_range_rejection (line : String) (flds : List String)
    (v0 v1 v2 v3 : Int)
    (q4 q5 q6 q7 q8 q9 q10 q11 q12 q13 q14 q15 q16 : ℚ)
    (k17 : Int) (q18 q19 : ℚ) (k20 k21 k22 k23 : Int)
    (v24 k25 k26 : Int) (q27 : ℚ) (v28 : Int)
    (hsplit : splitFields line = flds)
    (hlen : flds.length = 29)
    (h0 : pyInt (flds.getD 0 "") = some v0)
    (h1 : pyInt (flds.getD 1 "") = some v1)
    (h2 : pyInt (flds.getD 2 "") = some v2)
    (h3 : pyInt (flds.getD 3 "") = some v3)
    (h4 : pyFloat (flds.getD 4 "") = some q4)
    (h5 : pyFloat (flds.getD 5 "") = some q5)
    (h6 : pyFloat (flds.getD 6 "") = some q6)
    (h7 : pyFloat (flds.getD 7 "") = some q7)
    (h8 : pyFloat (flds.getD 8 "") = some q8)
    (h9 : pyFloat (flds.getD 9 "") = some q9)
    (h10 : pyFloat (flds.getD 10 "") = some q10)
    (h11 : pyFloat (flds.getD 11 "") = some q11)
    (h12 : pyFloat (flds.getD 12 "") = some q12)
    (h13 : pyFloat (flds.getD 13 "") = some q13)
    (h14 : pyFloat (flds.getD 14 "") = some q14)
    (h15 : pyFloat (flds.getD 15 "") = some q15)
    (h16 : pyFloat (flds.getD 16 "") = some q16)
    (h17 : pyInt (flds.getD 17 "") = some k17)
    (h18 : pyFloat (flds.getD 18 "") = some q18)
    (h19 : pyFloat (flds.getD 19 "") = some q19)
    (h20 : pyInt (flds.getD 20 "") = some k20)
    (h21 : pyInt (flds.getD 21 "") = some k21)
    (h22 : pyInt (flds.getD 22 "") = some k22)
    (h23 : pyInt (flds.getD 23 "") = some k23)
    (h24 : pyInt (flds.getD 24 "") = some v24)
    (h25 : pyInt (flds.getD 25 "") = some k25)
    (h26 : pyInt (flds.getD 26 "") = some k26)
    (h27 : pyFloat (flds.getD 27 "") = some q27)
    (h28 : pyInt (flds.getD 28 "") = some v28) :
    ((1800000000 < v1.natAbs ∨ 1800000000 < v2.natAbs) →
        isRangeError (TelemetryData.from_csv line) = true)
    ∧ ((v28 < 0 ∨ 6 < v28) →
        isRangeError (TelemetryData.from_csv line) = true)
    ∧ (v1.natAbs ≤ 1800000000 → v2.natAbs ≤ 1800000000 →
        0 ≤ v28 → v28 ≤ 6 →
        isRangeError (TelemetryData.from_csv line) = false) := by
  rw [from_csv_eq_validate line flds v0 v1 v2 v3 q4 q5 q6 q7 q8 q9 q10 q11
    q12 q13 q14 q15 q16 k17 q18 q19 k20 k21 k22 k23 v24 k25 k26 q27 v28
    hsplit hlen h0 h1 h2 h3 h4 h5 h6 h7 h8 h9 h10 h11 h12 h13 h14 h15 h16
    h17 h18 h19 h20 h21 h22 h23 h24 h25 h26 h27 h28]
  refine ⟨?_, ?_, ?_⟩
  · intro hd
    rw [isRangeError_validateTD]
    tauto
  · intro hd
    rw [isRangeError_validateTD]
    tauto
  · intro ha hb hc hd
    rw [Bool.eq_false_iff]
    intro hcon
    rw [isRangeError_validateTD] at hcon
    simp only at hcon
    omega

/-- Witness for C7: the line with scaled latitude `1800000001` is rejected
on range grounds, while `exampleLine` is not. -/
theorem from_csv_range_rejection_witness :
    isRangeError (TelemetryData.from_csv badLatLine) = true
    ∧ isRangeError (TelemetryData.from_csv exampleLine) = false := by
  constructor
  · exact (from_csv_range_rejection badLatLine badLatFields 12000 1800000001
      (-1051234567) 1523000 (decimalVal 15 2 1) (decimalVal 0 3 1)
      (-(decimalVal 0 1 1)) (decimalVal 0 5 2) (-(decimalVal 0 2 2))
      (decimalVal 0 1 1) (decimalVal 98 1 1) (decimalVal 152 3 1)
      (decimalVal 25 4 1) (decimalVal 24 8 1) (decimalVal 1013 25 2)
      (decimalVal 22 5 1) (decimalVal 300 0 1) 1 (decimalVal 45 5 1)
      (decimalVal 12 3 1) 1 1 0 0 1 1 0 (decimalVal 12 6 1) 2
      (by decide) (by decide) (by decide) (by decide) (by decide) (by decide)
      (by decide) (by decide) (by decide) (by decide) (by decide) (by decide)
      (by decide) (by decide) (by decide) (by decide) (by decide) (by decide)
      (by decide) (by decide) (by decide) (by decide) (by decide) (by decide)
      (by decide) (by decide) (by decide) (by decide) (by decide) (by decide)
      (by decide)).1 (by decide)
  · exact (from_csv_range_rejection exampleLine exampleFields 12000 401234567
      (-1051234567) 1523000 (decimalVal 15 2 1) (decimalVal 0 3 1)
      (-(decimalVal 0 1 1)) (decimalVal 0 5 2) (-(decimalVal 0 2 2))
      (decimalVal 0 1 1) (decimalVal 98 1 1) (decimalVal 152 3 1)
      (decimalVal 25 4 1) (decimalVal 24 8 1) (decimalVal 1013 25 2)
      (decimalVal 22 5 1) (decimalVal 300 0 1) 1 (decimalVal 45 5 1)
      (decimalVal 12 3 1) 1 1 0 0 1 1 0 (decimalVal 12 6 1) 2
      (by decide) (by decide) (by decide) (by decide) (by decide) (by decide)
      (by decide) (by decide) (by decide) (by decide) (by decide) (by decide)
      (by decide) (by decide) (by decide) (by decide) (by decide) (by decide)
      (by decide) (by decide) (by decide) (by decide) (by decide) (by decide)
      (by decide) (by decide) (by decide) (by decide) (by decide) (by decide)
      (by decide)).2.2 (by decide) (by decide) (by decide) (by decide)

/-! ## C8 — round trip -/

/-- Claim C8. For every raw line consisting of exactly 29 fields, each
coercible to its declared type (integer, floating point,
boolean-from-`0`/`1`), with geocoordinates within the scaled range and
flight stage in `[0, 6]`, `decode` succeeds and the constructed record's 29
fields equal the parsed field values unchanged — no field is altered,
dropped or reordered. -/
theorem from_csv_roundtrip (line : String) (flds : List String)
    (v0 v1 v2 v3 : Int)
    (q4 q5 q6 q7 q8 q9 q10 q11 q12 q13 q14 q15 q16 : ℚ)
    (k17 : Int) (q18 q19 : ℚ) (k20 k21 k22 k23 : Int)
    (v24 k25 k26 : Int) (q27 : ℚ) (v28 : Int)
    (hsplit : splitFields line = flds)
    (hlen : flds.length = 29)
    (h0 : pyInt (flds.getD 0 "") = some v0)
    (h1 : pyInt (flds.getD 1 "") = some v1)
    (h2 : pyInt (flds.getD 2 "") = some v2)
    (h3 : pyInt (flds.getD 3 "") = some v3)
    (h4 : pyFloat (flds.getD 4 "") = some q4)
    (h5 : pyFloat (flds.getD 5 "") = some q5)
    (h6 : pyFloat (flds.getD 6 "") = some q6)
    (h7 : pyFloat (flds.getD 7 "") = some q7)
    (h8 : pyFloat (flds.getD 8 "") = some q8)
    (h9 : pyFloat (flds.getD 9 "") = some q9)
    (h10 : pyFloat (flds.getD 10 "") = some q10)
    (h11 : pyFloat (flds.getD 11 "") = some q11)
    (h12 : pyFloat (flds.getD 12 "") = some q12)
    (h13 : pyFloat (flds.getD 13 "") = some q13)
    (h14 : pyFloat (flds.getD 14 "") = some q14)
    (h15 : pyFloat (flds.getD 15 "") = some q15)
    (h16 : pyFloat (flds.getD 16 "") = some q16)
    (h17 : pyInt (flds.getD 17 "") = some k17)
    (h18 : pyFloat (flds.getD 18 "") = some q18)
    (h19 : pyFloat (flds.getD 19 "") = some q19)
    (h20 : pyInt (flds.getD 20 "") = some k20)
    (h21 : pyInt (flds.getD 21 "") = some k21)
    (h22 : pyInt (flds.getD 22 "") = some k22)
    (h23 : pyInt (flds.getD 23 "") = some k23)
    (h24 : pyInt (flds.getD 24 "") = some v24)
    (h25 : pyInt (flds.getD 25 "") = some k25)
    (h26 : pyInt (flds.getD 26 "") = some k26)
    (h27 : pyFloat (flds.getD 27 "") = some q27)
    (h28 : pyInt (flds.getD 28 "") = some v28)
    (hb17 : k17 = 0 ∨ k17 = 1) (hb20 : k20 = 0 ∨ k20 = 1)
    (hb21 : k21 = 0 ∨ k21 = 1) (hb22 : k22 = 0 ∨ k22 = 1)
    (hb23 : k23 = 0 ∨ k23 = 1) (hb25 : k25 = 0 ∨ k25 = 1)
    (hb26 : k26 = 0 ∨ k26 = 1)
    (hr1 : v1.natAbs ≤ 1800000000) (hr2 : v2.natAbs ≤ 1800000000)
    (hr3 : 0 ≤ v28) (hr4 : v28 ≤ 6) :
    TelemetryData.from_csv line = .ok
      { cur_time := v0, gps_lat := v1, gps_lng := v2, gps_alt := v3,
        accel_x := q4, accel_y := q5, accel_z := q6, gyro_x := q7,
        gyro_y := q8, gyro_z := q9, hg_accel := q10, altitude := q11,
        velocity := q12, smooth_vel := q13, pressure := q14,
        temperature := q15, launchsite_msl := q16,
        airbrake_cont := k17 != 0, ab_servo_pct := q18,
        cnrd_servo_pct := q19, drogue_pyro_cont_1 := k20 != 0,
        drogue_pyro_cont_2 := k21 != 0, main_pyro_cont_1 := k22 != 0,
        main_pyro_cont_2 := k23 != 0, flight_index := v24,
        ellipse_on := k25 != 0, cameras_on := k26 != 0,
        battery_voltage := q27, flight_stage := v28 } := by
  rw [from_csv_eq_validate line flds v0 v1 v2 v3 q4 q5 q6 q7 q8 q9 q10 q11
    q12 q13 q14 q15 q16 k17 q18 q19 k20 k21 k22 k23 v24 k25 k26 q27 v28
    hsplit hlen h0 h1 h2 h3 h4 h5 h6 h7 h8 h9 h10 h11 h12 h13 h14 h15 h16
    h17 h18 h19 h20 h21 h22 h23 h24 h25 h26 h27 h28]
  have e1 : ¬ (1800000000 < v1.natAbs) := by omega
  have e2 : ¬ (1800000000 < v2.natAbs) := by omega
  have e3 : ¬ (v28 < 0 ∨ 6 < v28) := by omega
  simp only [validateTD, e1, e2, e3, if_false]

/-- Witness for C8: decoding `exampleLine` yields exactly `exampleRecord`. -/
theorem from_csv_roundtrip_witness :
    TelemetryData.from_csv exampleLine = .ok exampleRecord :=
  from_csv_roundtrip exampleLine exampleFields 12000 401234567
    (-1051234567) 1523000 (decimalVal 15 2 1) (decimalVal 0 3 1)
    (-(decimalVal 0 1 1)) (decimalVal 0 5 2) (-(decimalVal 0 2 2))
    (decimalVal 0 1 1) (decimalVal 98 1 1) (decimalVal 152 3 1)
    (decimalVal 25 4 1) (decimalVal 24 8 1) (decimalVal 1013 25 2)
    (decimalVal 22 5 1) (decimalVal 300 0 1) 1 (decimalVal 45 5 1)
    (decimalVal 12 3 1) 1 1 0 0 1 1 0 (decimalVal 12 6 1) 2
    (by decide) (by decide) (by decide) (by decide) (by decide) (by decide)
    (by decide) (by decide) (by decide) (by decide) (by decide) (by decide)
    (by decide) (by decide) (by decide) (by decide) (by decide) (by decide)
    (by decide) (by decide) (by decide) (by decide) (by decide) (by decide)
    (by decide) (by decide) (by decide) (by decide) (by decide) (by decide)
    (by decide) (Or.inr rfl) (Or.inr rfl) (Or.inr rfl) (Or.inl rfl)
    (Or.inl rfl) (Or.inr rfl) (Or.inl rfl) (by decide) (by decide)
    (by decide) (by decide)

/-! ## C10 — boolean fields accept any integer -/

/-- Claim C10. For every line with exactly 29 fields, `decode` accepts any
integer literal in each of the seven boolean positions (`airbrake_cont`,
the four pyro continuity flags, `ellipse_on`, `cameras_on`), not only `0`
and `1`: the field value `0` decodes to `false` and every nonzero integer
decodes to `true`, with no error raised.  The seven integers
`k17, k20, k21, k22, k23, k25, k26` below are arbitrary, and the decoded
boolean fields are exactly `k ≠ 0`. -/
theorem from_csv_bool_any_int (line : String) (flds : List String)
    (v0 v1 v2 v3 : Int)
    (q4 q5 q6 q7 q8 q9 q10 q11 q12 q13 q14 q15 q16 : ℚ)
    (k17 : Int) (q18 q19 : ℚ) (k20 k21 k22 k23 : Int)
    (v24 k25 k26 : Int) (q27 : ℚ) (v28 : Int)
    (hsplit : splitFields line = flds)
    (hlen : flds.length = 29)
    (h0 : pyInt (flds.getD 0 "") = some v0)
    (h1 : pyInt (flds.getD 1 "") = some v1)
    (h2 : pyInt (flds.getD 2 "") = some v2)
    (h3 : pyInt (flds.getD 3 "") = some v3)
    (h4 : pyFloat (flds.getD 4 "") = some q4)
    (h5 : pyFloat (flds.getD 5 "") = some q5)
    (h6 : pyFloat (flds.getD 6 "") = some q6)
    (h7 : pyFloat (flds.getD 7 "") = some q7)
    (h8 : pyFloat (flds.getD 8 "") = some q8)
    (h9 : pyFloat (flds.getD 9 "") = some q9)
    (h10 : pyFloat (flds.getD 10 "") = some q10)
    (h11 : pyFloat (flds.getD 11 "") = some q11)
    (h12 : pyFloat (flds.getD 12 "") = some q12)
    (h13 : pyFloat (flds.getD 13 "") = some q13)
    (h14 : pyFloat (flds.getD 14 "") = some q14)
    (h15 : pyFloat (flds.getD 15 "") = some q15)
    (h16 : pyFloat (flds.getD 16 "") = some q16)
    (h17 : pyInt (flds.getD 17 "") = some k17)
    (h18 : pyFloat (flds.getD 18 "") = some q18)
    (h19 : pyFloat (flds.getD 19 "") = some q19)
    (h20 : pyInt (flds.getD 20 "") = some k20)
    (h21 : pyInt (flds.getD 21 "") = some k21)
    (h22 : pyInt (flds.getD 22 "") = some k22)
    (h23 : pyInt (flds.getD 23 "") = some k23)
    (h24 : pyInt (flds.getD 24 "") = some v24)
    (h25 : pyInt (flds.getD 25 "") = some k25)
    (h26 : pyInt (flds.getD 26 "") = some k26)
    (h27 : pyFloat (flds.getD 27 "") = some q27)
    (h28 : pyInt (flds.getD 28 "") = some v28)
    (hr1 : v1.natAbs ≤ 1800000000) (hr2 : v2.natAbs ≤ 1800000000)
    (hr3 : 0 ≤ v28) (hr4 : v28 ≤ 6) :
    TelemetryData.from_csv line = .ok
      { cur_time := v0, gps_lat := v1, gps_lng := v2, gps_alt := v3,
        accel_x := q4, accel_y := q5, accel_z := q6, gyro_x := q7,
        gyro_y := q8, gyro_z := q9, hg_accel := q10, altitude := q11,
        velocity := q12, smooth_vel := q13, pressure := q14,
        temperature := q15, launchsite_msl := q16,
        airbrake_cont := k17 != 0, ab_servo_pct := q18,
        cnrd_servo_pct := q19, drogue_pyro_cont_1 := k20 != 0,
        drogue_pyro_cont_2 := k21 != 0, main_pyro_cont_1 := k22 != 0,
        main_pyro_cont_2 := k23 != 0, flight_index := v24,
        ellipse_on := k25 != 0, cameras_on := k26 != 0,
        battery_voltage := q27, flight_stage := v28 } := by
  rw [from_csv_eq_validate line flds v0 v1 v2 v3 q4 q5 q6 q7 q8 q9 q10 q11
    q12 q13 q14 q15 q16 k17 q18 q19 k20 k21 k22 k23 v24 k25 k26 q27 v28
    hsplit hlen h0 h1 h2 h3 h4 h5 h6 h7 h8 h9 h10 h11 h12 h13 h14 h15 h16
    h17 h18 h19 h20 h21 h22 h23 h24 h25 h26 h27 h28]
  have e1 : ¬ (1800000000 < v1.natAbs) := by omega
  have e2 : ¬ (1800000000 < v2.natAbs) := by omega
  have e3 : ¬ (v28 < 0 ∨ 6 < v28) := by omega
  simp only [validateTD, e1, e2, e3, if_false]

/-- Witness for C10: `boolishLine` carries `"2"`, `"-1"` and `"5"` in
boolean positions and decodes without error, those fields becoming `true`. -/
theorem from_csv_bool_any_int_witness :
    TelemetryData.from_csv boolishLine = .ok
      { exampleRecord with airbrake_cont := true, drogue_pyro_cont_1 := true,
                           ellipse_on := true } := by
  have h := from_csv_bool_any_int boolishLine boolishFields 12000 401234567
    (-1051234567) 1523000 (decimalVal 15 2 1) (decimalVal 0 3 1)
    (-(decimalVal 0 1 1)) (decimalVal 0 5 2) (-(decimalVal 0 2 2))
    (decimalVal 0 1 1) (decimalVal 98 1 1) (decimalVal 152 3 1)
    (decimalVal 25 4 1) (decimalVal 24 8 1) (decimalVal 1013 25 2)
    (decimalVal 22 5 1) (decimalVal 300 0 1) 2 (decimalVal 45 5 1)
    (decimalVal 12 3 1) (-1) 1 0 0 1 5 0 (decimalVal 12 6 1) 2
    (by decide) (by decide) (by decide) (by decide) (by decide) (by decide)
    (by decide) (by decide) (by decide) (by decide) (by decide) (by decide)
    (by decide) (by decide) (by decide) (by decide) (by decide) (by decide)
    (by decide) (by decide) (by decide) (by decide) (by decide) (by decide)
    (by decide) (by decide) (by decide) (by decide) (by decide) (by decide)
    (by decide) (by decide) (by decide) (by decide) (by decide)
  exact h

/-! ## C6 — clear before any data -/

/-- Claim C6. For every Session Store state in which no record has ever been
appended (`last_telemetry_time` unset), `clear_data` fails with the
no-data-yet error and leaves the entire store state unchanged: the manager
(in-memory buffer, `takeoff_offset_time`, `takeoff_wall_time`) and the
filesystem (the durable log at the current path) are returned exactly as
they were. -/
theorem clear_data_no_data (m : StorageManager) (fs : Fs) (ts wall : String)
    (h : m.last_telemetry_time = none) :
    m.clear_data fs ts wall = (m, fs, .error "No telemetry received yet") := by
  unfold StorageManager.clear_data
  rw [h]

/-- Witness for C6: a store that has never seen a record rejects the call
and is unchanged. -/
theorem clear_data_no_data_witness :
    StorageManager.clear_data
        { exampleManager with last_telemetry_time := none } exampleFs
        "2026-02-02_10-00-00" "2026-02-02T10:00:00"
      = ({ exampleManager with last_telemetry_time := none }, exampleFs,
         .error "No telemetry received yet") :=
  clear_data_no_data _ _ _ _ rfl

/-! ## C2 — clear-and-mark-takeoff -/

/-- Claim C2. For every Session Store state with at least one record appended
(`last_telemetry_time` set), `clear_data` succeeds and: the pre-existing
durable log is relocated intact (content unmodified) to
`backups/pre_flight_<ts>.csv`; `takeoff_offset_time` is set to
`last_telemetry_time` and `takeoff_wall_time` to the current wall clock; the
current session is replaced by a brand-new session whose in-memory buffer is
empty (with a fresh empty log at the current path); and the returned result
carries the backup identifier, the offset, and the wall time. -/
theorem clear_data_marks_takeoff (m : StorageManager) (fs : Fs)
    (ts wall : String) (last : ℚ) (c : FileContent)
    (hlast : m.last_telemetry_time = some last)
    (hcur : fsLookup fs m.currentPath = some c)
    (hne : m.currentPath ≠ m.backups_dir ++ "/pre_flight_" ++ ts ++ ".csv") :
    fsLookup (m.clear_data fs ts wall).2.1
        (m.backups_dir ++ "/pre_flight_" ++ ts ++ ".csv") = some c
    ∧ fsLookup (m.clear_data fs ts wall).2.1 m.currentPath = some []
    ∧ (m.clear_data fs ts wall).1.takeoff_offset_time = some last
    ∧ (m.clear_data fs ts wall).1.takeoff_wall_time = some wall
    ∧ (m.clear_data fs ts wall).1.current_session.telemetry_buffer = []
    ∧ (m.clear_data fs ts wall).2.2
        = .clearSuccess ("pre_flight_" ++ ts ++ ".csv") last wall := by
  simp only [StorageManager.clear_data, hlast]
  refine ⟨?_, ?_, trivial, trivial, trivial, trivial⟩
  · rw [fsLookup_fsSet_ne _ _ _ _ (Ne.symm hne)]
    simp only [fsMove, hcur]
    exact fsLookup_fsSet_self _ _ _
  · exact fsLookup_fsSet_self _ _ _

/-- Witness for C2: the one-row example store; the row survives at
`backups/pre_flight_2026-02-02_10-00-00.csv`, the offset becomes `12.0`. -/
theorem clear_data_marks_takeoff_witness :
    fsLookup
        (exampleManager.clear_data exampleFs "2026-02-02_10-00-00"
          "2026-02-02T10:00:00").2.1
        ("backups" ++ "/pre_flight_" ++ "2026-02-02_10-00-00" ++ ".csv")
      = some [("2026-01-01T00:00:00", exampleRecord)]
    ∧ fsLookup
        (exampleManager.clear_data exampleFs "2026-02-02_10-00-00"
          "2026-02-02T10:00:00").2.1 exampleManager.currentPath = some []
    ∧ (exampleManager.clear_data exampleFs "2026-02-02_10-00-00"
        "2026-02-02T10:00:00").1.takeoff_offset_time = some (mkRat 12000 1000)
    ∧ (exampleManager.clear_data exampleFs "2026-02-02_10-00-00"
        "2026-02-02T10:00:00").1.takeoff_wall_time
        = some "2026-02-02T10:00:00"
    ∧ (exampleManager.clear_data exampleFs "2026-02-02_10-00-00"
        "2026-02-02T10:00:00").1.current_session.telemetry_buffer = []
    ∧ (exampleManager.clear_data exampleFs "2026-02-02_10-00-00"
        "2026-02-02T10:00:00").2.2
        = .clearSuccess ("pre_flight_" ++ "2026-02-02_10-00-00" ++ ".csv")
            (mkRat 12000 1000) "2026-02-02T10:00:00" :=
  clear_data_marks_takeoff exampleManager exampleFs "2026-02-02_10-00-00"
    "2026-02-02T10:00:00" (mkRat 12000 1000)
    [("2026-01-01T00:00:00", exampleRecord)] rfl (by decide) (by decide)

/-! ## C3 — save-and-clear -/

/-- Claim C3. For every Session Store state, after a successful
`save_and_clear`: the old live-log content is no longer at the well-known
current path (a brand-new empty log is there instead); a copy of the old
content exists in the primary archive directory and another copy in the
backup directory, both under the same generation timestamp;
`takeoff_offset_time` and `takeoff_wall_time` are reset to unset; and a new
empty session is opened. -/
theorem save_and_clear_archives (m : StorageManager) (fs : Fs)
    (ts wall : String) (c : FileContent)
    (hcur : fsLookup fs m.currentPath = some c)
    (hb : m.currentPath ≠ m.backups_dir ++ "/flight_" ++ ts ++ ".csv")
    (ha : m.currentPath ≠ m.log_dir ++ "/flight_" ++ ts ++ ".csv")
    (hba : m.backups_dir ++ "/flight_" ++ ts ++ ".csv"
            ≠ m.log_dir ++ "/flight_" ++ ts ++ ".csv") :
    fsLookup (m.save_and_clear fs ts wall).2.1
        (m.log_dir ++ "/flight_" ++ ts ++ ".csv") = some c
    ∧ fsLookup (m.save_and_clear fs ts wall).2.1
        (m.backups_dir ++ "/flight_" ++ ts ++ ".csv") = some c
    ∧ fsLookup (m.save_and_clear fs ts wall).2.1 m.currentPath = some []
    ∧ (m.save_and_clear fs ts wall).1.takeoff_offset_time = none
    ∧ (m.save_and_clear fs ts wall).1.takeoff_wall_time = none
    ∧ (m.save_and_clear fs ts wall).1.current_session.telemetry_buffer = []
    ∧ (m.save_and_clear fs ts wall).2.2
        = .saveSuccess ("flight_" ++ ts ++ ".csv") wall := by
  have hcur1 : fsLookup (fsCopy fs m.currentPath
      (m.backups_dir ++ "/flight_" ++ ts ++ ".csv")) m.currentPath = some c := by
    simp only [fsCopy, hcur]
    rw [fsLookup_fsSet_ne _ _ _ _ hb]
    exact hcur
  simp only [StorageManager.save_and_clear]
  refine ⟨?_, ?_, ?_, trivial, trivial, trivial, trivial⟩
  · rw [fsLookup_fsSet_ne _ _ _ _ (Ne.symm ha)]
    simp only [fsMove, hcur1]
    exact fsLookup_fsSet_self _ _ _
  · rw [fsLookup_fsSet_ne _ _ _ _ (Ne.symm hb)]
    simp only [fsMove, hcur1]
    rw [fsLookup_fsSet_ne _ _ _ _ hba]
    rw [fsLookup_fsRemove_ne _ _ _ (Ne.symm hb)]
    simp only [fsCopy, hcur]
    exact fsLookup_fsSet_self _ _ _
  · exact fsLookup_fsSet_self _ _ _

/-- Witness for C3: the one-row example store; the row is at both
`flight_logs/flight_<ts>.csv` and `backups/flight_<ts>.csv`, the current
path holds a fresh empty log, and the takeoff state is unset. -/
theorem save_and_clear_archives_witness :
    fsLookup
        (exampleManager.save_and_clear exampleFs "2026-03-03_11-00-00"
          "2026-03-03T11:00:00").2.1
        ("flight_logs" ++ "/flight_" ++ "2026-03-03_11-00-00" ++ ".csv")
      = some [("2026-01-01T00:00:00", exampleRecord)]
    ∧ fsLookup
        (exampleManager.save_and_clear exampleFs "2026-03-03_11-00-00"
          "2026-03-03T11:00:00").2.1
        ("backups" ++ "/flight_" ++ "2026-03-03_11-00-00" ++ ".csv")
      = some [("2026-01-01T00:00:00", exampleRecord)]
    ∧ fsLookup
        (exampleManager.save_and_clear exampleFs "2026-03-03_11-00-00"
          "2026-03-03T11:00:00").2.1 exampleManager.currentPath = some []
    ∧ (exampleManager.save_and_clear exampleFs "2026-03-03_11-00-00"
        "2026-03-03T11:00:00").1.takeoff_offset_time = none
    ∧ (exampleManager.save_and_clear exampleFs "2026-03-03_11-00-00"
        "2026-03-03T11:00:00").1.takeoff_wall_time = none
    ∧ (exampleManager.save_and_clear exampleFs "2026-03-03_11-00-00"
        "2026-03-03T11:00:00").1.current_session.telemetry_buffer = []
    ∧ (exampleManager.save_and_clear exampleFs "2026-03-03_11-00-00"
        "2026-03-03T11:00:00").2.2
        = .saveSuccess ("flight_" ++ "2026-03-03_11-00-00" ++ ".csv")
            "2026-03-03T11:00:00" :=
  save_and_clear_archives exampleManager exampleFs "2026-03-03_11-00-00"
    "2026-03-03T11:00:00" [("2026-01-01T00:00:00", exampleRecord)]
    (by decide) (by decide) (by decide) (by decide)

/-! ## C4 — fan-out and pruning -/

/-- Closed form of one `broadcast_message` call: delivery is attempted to
exactly the members present at the start of the call (in order), and the set
afterwards is the starting set filtered by delivery success. -/
theorem broadcast_message_eq (ok : Nat → Bool) (hub : Hub) :
    broadcast_message ok hub =
      ({ connected_clients := hub.connected_clients.filter ok },
       hub.connected_clients) := by
  obtain ⟨cls⟩ := hub
  unfold broadcast_message
  by_cases hemp : cls.isEmpty = true
  · have hnil : cls = [] := List.isEmpty_iff.mp hemp
    subst hnil
    simp
  · rw [if_neg hemp]
    by_cases hd : (cls.filter (fun c => !(ok c))).isEmpty = true
    · rw [if_pos hd]
      have hall : ∀ a ∈ cls, ok a := by
        intro a ha
        have h2 := List.filter_eq_nil_iff.mp (List.isEmpty_iff.mp hd) a ha
        simpa using h2
      rw [Prod.mk.injEq]
      refine ⟨?_, rfl⟩
      rw [List.filter_eq_self.mpr hall]
    · rw [if_neg hd]
      rw [Prod.mk.injEq]
      refine ⟨?_, rfl⟩
      have hfc : cls.filter
          (fun c => !((cls.filter (fun c => !(ok c))).contains c))
            = cls.filter ok := by
        apply List.filter_congr
        intro x hx
        by_cases hox : ok x = true
        · have hnm : x ∉ cls.filter (fun c => !(ok c)) := by
            simp [List.mem_filter, hox]
          have hc : (cls.filter (fun c => !(ok c))).contains x = false := by
            simpa using hnm
          simp [hc, hox]
        · have hoxf : ok x = false := by simpa using hox
          have hm : x ∈ cls.filter (fun c => !(ok c)) :=
            List.mem_filter.mpr ⟨hx, by simp [hoxf]⟩
          have hc : (cls.filter (fun c => !(ok c))).contains x = true := by
            simpa using hm
          simp [hc, hoxf]
          exact hx
      rw [hfc]

/-- A handle that is not a member is never attempted, and never becomes a
member, across any sequence of later `publish` calls. -/
theorem notMem_runPublishes (cl : Nat) (hub : Hub)
    (hcl : cl ∉ hub.connected_clients) (oks : List (Nat → Bool)) :
    ∀ att ∈ (runPublishes hub oks).2, cl ∉ att := by
  induction oks generalizing hub with
  | nil => intro att hatt; cases hatt
  | cons ok rest ih =>
    intro att hatt
    simp only [runPublishes, broadcast_message_eq] at hatt
    rcases List.mem_cons.mp hatt with h | h
    · subst h; exact hcl
    · refine ih { connected_clients := hub.connected_clients.filter ok }
        ?_ att h
      intro hmem
      exact hcl (List.mem_filter.mp hmem).1

/-- Claim C4. For every subscriber set at the start of a `publish` call and
every subset of members whose delivery fails during that call:
delivery is attempted exactly once to each member that was in the set at the
start (so removal happens only after the full fan-out pass — failing members
are still attempted, the set is never mutated mid-iteration); exactly the
failed members are removed and every member with successful delivery
remains; and no subsequent `publish`, over any sequence of later calls, ever
attempts delivery to a removed member. -/
theorem broadcast_message_fanout (hub : Hub) (ok : Nat → Bool)
    (hnd : hub.connected_clients.Nodup) :
    (broadcast_message ok hub).2 = hub.connected_clients
    ∧ (∀ cl ∈ hub.connected_clients, (broadcast_message ok hub).2.count cl = 1)
    ∧ (broadcast_message ok hub).1.connected_clients
        = hub.connected_clients.filter ok
    ∧ (∀ cl ∈ hub.connected_clients, ok cl = true →
        cl ∈ (broadcast_message ok hub).1.connected_clients)
    ∧ (∀ cl, ok cl = false → ∀ oks : List (Nat → Bool),
        ∀ att ∈ (runPublishes (broadcast_message ok hub).1 oks).2, cl ∉ att) := by
  simp only [broadcast_message_eq]
  refine ⟨trivial, ?_, trivial, ?_, ?_⟩
  · intro cl hcl
    exact List.count_eq_one_of_mem hnd hcl
  · intro cl hcl hok
    exact List.mem_filter.mpr ⟨hcl, hok⟩
  · intro cl hok oks
    refine notMem_runPublishes cl _ ?_ oks
    intro hmem
    have := (List.mem_filter.mp hmem).2
    rw [hok] at this
    cases this

/-- Witness for C4, the specification's 5-subscriber scenario: with
subscribers `{1,2,3,4,5}` and delivery to `#3` failing, the `publish` pass
attempts all five, afterwards `{1,2,4,5}` remain, and a subsequent `publish`
attempts exactly `{1,2,4,5}` — never `#3`. -/
theorem broadcast_message_fanout_witness :
    (broadcast_message (fun c => c != 3)
        { connected_clients := [1, 2, 3, 4, 5] }).2 = [1, 2, 3, 4, 5]
    ∧ (broadcast_message (fun c => c != 3)
        { connected_clients := [1, 2, 3, 4, 5] }).1.connected_clients
        = [1, 2, 4, 5]
    ∧ (broadcast_message (fun _ => true)
        ((broadcast_message (fun c => c != 3)
          { connected_clients := [1, 2, 3, 4, 5] }).1)).2 = [1, 2, 4, 5]
    ∧ (3 : Nat) ∉ ([1, 2, 4, 5] : List Nat) := by
  have h1 := broadcast_message_fanout { connected_clients := [1, 2, 3, 4, 5] }
    (fun c => c != 3) (by decide)
  refine ⟨h1.1, h1.2.2.1.trans (by decide), ?_, by decide⟩
  have h2 := broadcast_message_fanout
    ((broadcast_message (fun c => c != 3)
      { connected_clients := [1, 2, 3, 4, 5] }).1) (fun _ => true) (by decide)
  exact h2.1.trans (by decide)

/-! ## C9 — the driver loop survives per-record errors -/

/-- Claim C9. The pipeline-driver loop never terminates on a per-record
error: it consumes every queued line — the outcome trace has one entry per
line, whatever the lines are, so the loop always returns to its waiting
state — and for every dequeued raw line whose decode fails, the driver logs
the error, discards the line (the state is unchanged: nothing persisted,
nothing broadcast), and proceeds to the next iteration.  Errors later in
the body (persist, format, broadcast) are caught by the loop's outer
`except` and become `errorLogged` outcomes rather than terminating the
loop. -/
theorem broadcast_telemetry_robust :
    (∀ (st : GroundState) (lines : List (String × String)),
        (run_broadcast_telemetry st lines).2.length = lines.length)
    ∧ (∀ (st : GroundState) (line wall : String) (e : DecodeErr),
        TelemetryData.from_csv line = .error e →
        broadcast_telemetry_step st line wall = (st, .discarded e)) := by
  constructor
  · intro st lines
    induction lines generalizing st with
    | nil => rfl
    | cons hd tl ih =>
      obtain ⟨line, wall⟩ := hd
      simp only [run_broadcast_telemetry, List.length_cons, ih]
  · intro st line wall e he
    unfold broadcast_telemetry_step broadcast_telemetry_body
    rw [he]

/-- Witness for C9: a queue holding one undecodable line and one good line
is fully consumed (two outcomes), and the step on the bad line leaves the
state untouched and discards with the field-count error. -/
theorem broadcast_telemetry_robust_witness :
    (run_broadcast_telemetry
        { storage := exampleManager, fs := exampleFs, outbox := [] }
        [("bad", "w1"), (exampleLine, "w2")]).2.length = 2
    ∧ broadcast_telemetry_step
        { storage := exampleManager, fs := exampleFs, outbox := [] }
        "bad" "w1"
      = ({ storage := exampleManager, fs := exampleFs, outbox := [] },
         .discarded (.fieldCount 1)) :=
  ⟨broadcast_telemetry_robust.1
      { storage := exampleManager, fs := exampleFs, outbox := [] }
      [("bad", "w1"), (exampleLine, "w2")],
   broadcast_telemetry_robust.2
      { storage := exampleManager, fs := exampleFs, outbox := [] }
      "bad" "w1" (.fieldCount 1) (by decide)⟩

/-! ## C1 — the formatter and the takeoff offset

The claim states that every channel point of a record's batch carries
`time = cur_time_ms / 1000 − (takeoff_offset or 0)`, on both the live
broadcast path and the `currentData` catch-up path, with the altitude point
of the 29-field example record at `time = 7.0` under `takeoff_offset = 5.0`.
The code does not do this: `utils.format_for_frontend` takes no
takeoff-offset parameter and computes `time = cur_time / 1000.0`
unconditionally, while both call sites that try to pass the offset
(`main.py` line 165 and `storage.py` line 71, like the repository's own test
`test_format_with_time_adjustment`) call it with two arguments and therefore
raise `TypeError`.  The theorem below evaluates the code at the claim's
failing input. -/

/-- Claim C1 (code-bug evidence). Decoding the example line and running the
one-argument formatter that exists in `utils.py`: every point of the batch
carries `time = cur_time/1000 = 12.0` — the altitude point is
`{12.0, "altitude", 152.3}` and no point carries the claimed `time = 7.0` —
and the two-argument offset-passing call used by the live broadcast path and
the `currentData` catch-up path raises `TypeError` instead of producing a
batch. -/
theorem format_time_ignores_takeoff_offset :
    TelemetryData.from_csv exampleLine = .ok exampleRecord
    ∧ (format_for_frontend exampleRecord).all
        (fun p => p.time == mkRat exampleRecord.cur_time 1000) = true
    ∧ WirePoint.mk 12 "altitude" (decimalVal 152 3 1)
        ∈ format_for_frontend exampleRecord
    ∧ (format_for_frontend exampleRecord).all
        (fun p => !(p.time == 7)) = true
    ∧ call_format_for_frontend exampleRecord (some 5)
        = .error (.typeError
            "format_for_frontend() takes 1 positional argument but 2 were given")
    ∧ StorageManager.get_current_data
        { exampleManager with takeoff_offset_time := some 5 }
        = .error (.typeError
            "format_for_frontend() takes 1 positional argument but 2 were given") := by
  refine ⟨by decide, by decide, by decide, by decide, rfl, by decide⟩

end GroundStation
